import Mathlib

/-!
# Verification of the T5 attention core (libai, projects/T5/models)

Shallow embedding of:
  * `projects/T5/models/attention.py`   (`MultiheadAttention`)
  * `projects/T5/models/transformer_layer.py` (`TransformerLayer`)
  * `projects/T5/models/layer_norm.py`  (RMS `LayerNorm`)

Modelling conventions:
  * Tensors are total index functions into `ℝ` together with an explicit
    size for the sequence dimension where that size matters (caching,
    slicing).  Batch/head/feature dimensions are plain `ℕ` indices; all
    claims quantify over or evaluate at in-range indices.
  * Floating point numbers are modelled as real numbers; `flow.log`,
    `flow.rsqrt`, `softmax` use `Real.log`, `Real.sqrt`, `Real.exp`.
  * Distributed-placement operations (`to_global`, sbp changes) are layout
    metadata only (spec §6 treats the distributed runtime as an opaque
    collaborator whose layout conversion is value-preserving); they are
    modelled as identities.
  * `nn.Dropout` is modelled as the identity: every claim under scrutiny
    assumes the dropout probabilities are zero / dropout is disabled, and
    `Dropout(p=0)` is the identity map.
  * Fallible code paths (Python `raise` / failing attribute access /
    failing `assert`) are modelled with `Except AttnErr`.
-/

noncomputable section

/-- Runtime failures of the attention core (Python exceptions). -/
inductive AttnErr where
  /-- `attention.py` line 169: `assert len(past_key_value) == 2`. -/
  | pastNotPair
  /-- `attention.py` line 190: `raise ValueError("past_key_value and encoder_states
      cannot be None at the same time.")` in cross-attention. -/
  | crossNoSource
  /-- `attention.py` line 236: `attention_mask.sbp` with `attention_mask = None`
      (AttributeError) on the branch that folds the mask into the bias. -/
  | maskNone
  /-- `attention.py` line 320: `math.log(max_distance / max_exact)` with
      `max_exact = 0` (ZeroDivisionError), raised for every offset whenever
      the bucket configuration degenerates (e.g. bidirectional with
      `num_buckets = 2`). -/
  | divByZero
  /-- `transformer_layer.py` line 166: `assert len(past_key_value) == 4`. -/
  | decoderPastNot4
deriving DecidableEq

/-- A value of shape `[bsz, seq, feature]` (hidden states). -/
abbrev BT3 := ℕ → ℕ → ℕ → ℝ

/-- A value of shape `[bsz, heads, seq, seq-or-head_size]`. -/
abbrev BT4 := ℕ → ℕ → ℕ → ℕ → ℝ

/-- Attention mask `[bsz, 1, tgt, src]`: the singleton broadcast axis is elided,
    indices are `(batch, tgt, src)`; broadcasting over heads = the value does
    not depend on the head index. -/
abbrev MaskT := ℕ → ℕ → ℕ → ℝ

/-- Position bias `[1, heads, tgt, src]`: the singleton batch axis is elided,
    indices are `(head, tgt, src)`. -/
abbrev BiasT := ℕ → ℕ → ℕ → ℝ

/-- A 3-D tensor `[bsz, seq, feature]` carrying the size of its sequence
    dimension (dim 1). -/
structure Tensor3 where
  val : BT3
  len : ℕ

/-- A 4-D tensor `[bsz, heads, seq, head_size]` carrying the size of its
    sequence dimension (dim 2), as used for keys/values and caches. -/
structure Tensor4 where
  val : BT4
  len : ℕ

/-- Truncation of a real towards zero, the semantics of `.to(flow.long)`
    on a float tensor. -/
def longOf (x : ℝ) : ℤ := if 0 ≤ x then ⌊x⌋ else -⌊-x⌋

/-- The `max_exact` threshold of `_relative_position_bucket` (attention.py
    lines 301-315): half the (direction-halved, for bidirectional) bucket
    count.  When it is zero, the scalar `math.log(max_distance / max_exact)`
    at line 320 raises ZeroDivisionError. -/
def bucketMaxExact (bidirectional : Bool) (num_buckets : ℕ) : ℕ :=
  (if bidirectional then num_buckets / 2 else num_buckets) / 2

/-- The bucket value computed by `_relative_position_bucket` (attention.py
    lines 297-335) on configurations where `max_exact ≠ 0`.  The float
    computation (`flow.log`, float division) is modelled over `ℝ`;
    `.to(flow.long)` is truncation towards zero.  This value is only exposed
    through `MultiheadAttention.relativePositionBucket` below, which errors
    out on the `max_exact = 0` configurations where Python raises before
    producing any value. -/
def relativePositionBucketVal
    (relative_position : ℤ) (bidirectional : Bool)
    (num_buckets max_distance : ℕ) : ℤ :=
  -- `num_buckets //= 2` and the `(relative_position > 0)`/`abs` handling
  let nb : ℕ := if bidirectional then num_buckets / 2 else num_buckets
  let relative_buckets : ℤ :=
    if bidirectional then (if 0 < relative_position then (nb : ℤ) else 0) else 0
  let rp : ℤ :=
    if bidirectional then |relative_position| else -(min relative_position 0)
  let max_exact : ℕ := nb / 2
  let if_large : ℤ :=
    (max_exact : ℤ) +
      longOf (Real.log ((rp : ℝ) / (max_exact : ℝ)) /
              Real.log ((max_distance : ℝ) / (max_exact : ℝ)) *
              ((nb : ℝ) - (max_exact : ℝ)))
  let if_large_clamped : ℤ := min if_large ((nb : ℤ) - 1)
  relative_buckets + (if rp < (max_exact : ℤ) then rp else if_large_clamped)

/-- `MultiheadAttention._relative_position_bucket` (attention.py lines
    297-335).  The scalar `math.log(max_distance / max_exact)` at line 320 is
    evaluated unconditionally, so whenever `max_exact = 0` Python raises
    ZeroDivisionError for every `relative_position` (one scalar division per
    call, shared by the whole vectorized matrix); otherwise the bucket value
    is returned. -/
def MultiheadAttention.relativePositionBucket
    (relative_position : ℤ) (bidirectional : Bool)
    (num_buckets max_distance : ℕ) : Except AttnErr ℤ :=
  if bucketMaxExact bidirectional num_buckets = 0 then .error .divByZero
  else
    .ok (relativePositionBucketVal relative_position bidirectional
      num_buckets max_distance)

lemma longOf_nonneg {x : ℝ} (hx : 0 ≤ x) : 0 ≤ longOf x := by
  unfold longOf
  rw [if_pos hx]
  exact Int.floor_nonneg.mpr hx

/-- Bounds for the direction-independent part of the bucket computation. -/
lemma bucket_core_bounds (rp : ℤ) (n md : ℕ) (hrp : 0 ≤ rp) (hn : 0 < n)
    (hmd : n / 2 < md) :
    0 ≤ (if rp < ((n / 2 : ℕ) : ℤ) then rp
         else min (((n / 2 : ℕ) : ℤ) +
            longOf (Real.log ((rp : ℝ) / ((n / 2 : ℕ) : ℝ)) /
              Real.log ((md : ℝ) / ((n / 2 : ℕ) : ℝ)) *
              ((n : ℝ) - ((n / 2 : ℕ) : ℝ)))) ((n : ℤ) - 1)) ∧
    (if rp < ((n / 2 : ℕ) : ℤ) then rp
         else min (((n / 2 : ℕ) : ℤ) +
            longOf (Real.log ((rp : ℝ) / ((n / 2 : ℕ) : ℝ)) /
              Real.log ((md : ℝ) / ((n / 2 : ℕ) : ℝ)) *
              ((n : ℝ) - ((n / 2 : ℕ) : ℝ)))) ((n : ℤ) - 1)) ≤ (n : ℤ) - 1 := by
  set me : ℕ := n / 2 with hme
  by_cases hsmall : rp < (me : ℤ)
  · rw [if_pos hsmall]
    have hmen : (me : ℤ) ≤ (n : ℤ) := by
      exact_mod_cast Nat.div_le_self n 2
    exact ⟨hrp, by omega⟩
  · rw [if_neg hsmall]
    push_neg at hsmall
    have hn1 : (0 : ℤ) ≤ (n : ℤ) - 1 := by
      have : (1 : ℤ) ≤ (n : ℤ) := by exact_mod_cast hn
      omega
    refine ⟨le_min ?_ hn1, min_le_right _ _⟩
    by_cases hme0 : me = 0
    · -- degenerate configuration: all the float junk collapses to 0 in ℝ
      have : Real.log ((rp : ℝ) / ((me : ℕ) : ℝ)) = 0 := by
        rw [hme0]; simp
      rw [this]
      simp [longOf]
    · have hmepos : 0 < (me : ℝ) := by
        have : 0 < me := Nat.pos_of_ne_zero hme0
        exact_mod_cast this
      have hlog1 : 0 ≤ Real.log ((rp : ℝ) / (me : ℝ)) := by
        apply Real.log_nonneg
        rw [le_div_iff₀ hmepos]
        have : (me : ℝ) ≤ (rp : ℝ) := by exact_mod_cast hsmall
        linarith
      have hlog2 : 0 < Real.log ((md : ℝ) / (me : ℝ)) := by
        apply Real.log_pos
        rw [lt_div_iff₀ hmepos]
        have : (me : ℝ) < (md : ℝ) := by exact_mod_cast hmd
        linarith
      have hnme : 0 ≤ (n : ℝ) - (me : ℝ) := by
        have : (me : ℝ) ≤ (n : ℝ) := by exact_mod_cast Nat.div_le_self n 2
        linarith
      have hprod : 0 ≤ Real.log ((rp : ℝ) / (me : ℝ)) /
          Real.log ((md : ℝ) / (me : ℝ)) * ((n : ℝ) - (me : ℝ)) :=
        mul_nonneg (div_nonneg hlog1 hlog2.le) hnme
      have := longOf_nonneg hprod
      positivity

/-- C4 counterexample: the claim's valid-configuration envelope
    (`num_buckets` positive even, `max_distance > num_buckets / 2`) admits
    the bidirectional configuration `num_buckets = 2`, `max_distance = 128`,
    where `max_exact = 0` and `_relative_position_bucket` raises
    ZeroDivisionError at `math.log(max_distance / max_exact)` for every
    offset — so it returns no bucket index at all there, let alone one in
    `[0, num_buckets - 1]`. -/
theorem relative_position_bucket_divzero_cex :
    MultiheadAttention.relativePositionBucket 0 true 2 128 =
      .error .divByZero ∧
    (0 < 2 ∧ Even 2 ∧ 2 / 2 < 128 ∧ (-10000 : ℤ) ≤ 0 ∧ (0 : ℤ) ≤ 10000) := by
  exact ⟨rfl, by decide⟩

/-- C4 amended: for every integer `relative_position` in [−10000, 10000],
    every bidirectional flag and every valid configuration (`num_buckets` a
    positive even integer, `max_distance > num_buckets / 2`) whose exact
    threshold `max_exact` is nonzero (which only excludes bidirectional
    `num_buckets = 2`, where the function raises ZeroDivisionError instead
    of returning), `_relative_position_bucket` returns a bucket index in
    `[0, num_buckets - 1]`. -/
theorem relative_position_bucket_bounded
    (relative_position : ℤ) (bidirectional : Bool) (num_buckets max_distance : ℕ)
    (hpos : 0 < num_buckets) (heven : Even num_buckets)
    (hmd : num_buckets / 2 < max_distance)
    (hlo : (-10000 : ℤ) ≤ relative_position) (hhi : relative_position ≤ 10000)
    (hme : bucketMaxExact bidirectional num_buckets ≠ 0) :
    MultiheadAttention.relativePositionBucket relative_position bidirectional
        num_buckets max_distance =
      .ok (relativePositionBucketVal relative_position bidirectional
        num_buckets max_distance) ∧
    0 ≤ relativePositionBucketVal relative_position bidirectional
          num_buckets max_distance ∧
    relativePositionBucketVal relative_position bidirectional
          num_buckets max_distance ≤ (num_buckets : ℤ) - 1 := by
  have he2 : num_buckets % 2 = 0 := Nat.even_iff.mp heven
  refine ⟨by simp [MultiheadAttention.relativePositionBucket, hme], ?_⟩
  unfold relativePositionBucketVal
  cases bidirectional
  · -- unidirectional (decoder): clamp to the past, no positive-offset shift
    have hrp : 0 ≤ -(min relative_position 0) := by
      have := min_le_right relative_position 0
      omega
    have h := bucket_core_bounds (-(min relative_position 0)) num_buckets
      max_distance hrp hpos hmd
    simpa using h
  · -- bidirectional (encoder): halve the buckets, shift positive offsets
    have hn : 0 < num_buckets / 2 := by omega
    have hmd2 : (num_buckets / 2) / 2 < max_distance := by
      have := Nat.div_le_self (num_buckets / 2) 2
      omega
    obtain ⟨h0, h1⟩ := bucket_core_bounds |relative_position| (num_buckets / 2)
      max_distance (abs_nonneg _) hn hmd2
    simp only [reduceIte]
    have hrb0 : (0 : ℤ) ≤ (if 0 < relative_position then ((num_buckets / 2 : ℕ) : ℤ) else 0) := by
      split_ifs
      · exact Int.natCast_nonneg _
      · exact le_refl 0
    have hrb1 : (if 0 < relative_position then ((num_buckets / 2 : ℕ) : ℤ) else 0)
        ≤ ((num_buckets / 2 : ℕ) : ℤ) := by
      split_ifs
      · exact le_refl _
      · exact Int.natCast_nonneg _
    refine ⟨add_nonneg hrb0 h0, le_trans (add_le_add hrb1 h1) ?_⟩
    omega

/-- Witness for the amended C4 at a concrete valid configuration (the T5
    defaults `num_buckets = 32`, `max_distance = 128`) and offset `-7`. -/
theorem relative_position_bucket_bounded_witness :
    MultiheadAttention.relativePositionBucket (-7) false 32 128 =
      .ok (relativePositionBucketVal (-7) false 32 128) ∧
    0 ≤ relativePositionBucketVal (-7) false 32 128 ∧
    relativePositionBucketVal (-7) false 32 128 ≤ (32 : ℤ) - 1 :=
  relative_position_bucket_bounded (-7) false 32 128 (by decide) (by decide)
    (by decide) (by decide) (by decide) (by decide)

/-- Modelled from the spec: the external linear projection component (spec §6,
    `libai.layers.linear.Linear`, source not in the provided tree).  A
    parameterized linear map `y = x Wᵀ`; every `Linear` constructed by this
    core has `bias=False`, and the partition strategy is layout metadata only. -/
def linearT (W : ℕ → ℕ → ℝ) (inDim : ℕ) (x : BT3) : BT3 :=
  fun b s o => ∑ c in Finset.range inDim, W o c * x b s c

/-- Static configuration and learned weights of one `MultiheadAttention`
    (attention.py lines 37-124).  `coeff = some (layer_idx + 1)` iff
    `apply_query_key_layer_scaling` was enabled; the learned tables are the
    weight functions.  (`norm_factor` is also set in `__init__` but is never
    read in `forward`, so it is not part of the forward model.) -/
structure MHAConfig where
  hidden_size : ℕ
  num_heads : ℕ
  is_cross_attention : Bool
  scale_mask_softmax_fusion : Bool
  coeff : Option ℕ
  has_relative_attention_bias : Bool
  is_decoder : Bool
  relative_attention_num_buckets : ℕ
  /-- weight of `self.query_key_value : Linear(hidden, 3*hidden)` (self-attention) -/
  query_key_value : ℕ → ℕ → ℝ
  /-- weight of `self.query : Linear(hidden, hidden)` (cross-attention) -/
  wq : ℕ → ℕ → ℝ
  /-- weight of `self.key_value : Linear(hidden, 2*hidden)` (cross-attention) -/
  key_value : ℕ → ℕ → ℝ
  /-- weight of `self.dense : Linear(hidden, hidden)` -/
  dense : ℕ → ℕ → ℝ
  /-- Modelled from the spec: `libai.layers.embedding.Embedding` (source not in
      the provided tree), the learned `(num_buckets, num_heads)` table of
      `self.relative_attention_bias`; lookup of a bucket row. -/
  relative_attention_bias : ℤ → ℕ → ℝ

/-- `self.head_size = hidden_size // num_attention_heads` (attention.py line 69). -/
def MHAConfig.head_size (cfg : MHAConfig) : ℕ := cfg.hidden_size / cfg.num_heads

/-- `MultiheadAttention.compute_bias` (attention.py lines 337-355):
    `relative_position[i][j] = j - i`, bucketed with
    `bidirectional = not is_decoder` and the layer's bucket count
    (`max_distance` keeps its default 128), then looked up in the learned
    table and rearranged to `(1, heads, query_length, key_length)`.  The
    vectorized bucketing evaluates one scalar
    `math.log(max_distance / max_exact)` for the whole matrix, so the entire
    call raises ZeroDivisionError exactly when `max_exact = 0`, before any
    table lookup. -/
def MHAConfig.compute_bias (cfg : MHAConfig)
    (query_length key_length : ℕ) : Except AttnErr BiasT :=
  if bucketMaxExact (!cfg.is_decoder) cfg.relative_attention_num_buckets = 0
  then .error .divByZero
  else
    .ok (fun h i j =>
      cfg.relative_attention_bias
        (relativePositionBucketVal ((j : ℤ) - (i : ℤ))
          (!cfg.is_decoder) cfg.relative_attention_num_buckets 128) h)

/-- `compute_bias` raises exactly when the underlying
    `_relative_position_bucket` raises: both are guarded by the same scalar
    `max_exact = 0` division. -/
lemma compute_bias_raises_iff_bucket_raises (cfg : MHAConfig)
    (query_length key_length : ℕ) (rp : ℤ) :
    cfg.compute_bias query_length key_length = .error .divByZero ↔
      MultiheadAttention.relativePositionBucket rp (!cfg.is_decoder)
        cfg.relative_attention_num_buckets 128 = .error .divByZero := by
  by_cases h : bucketMaxExact (!cfg.is_decoder)
      cfg.relative_attention_num_buckets = 0 <;>
    simp [MHAConfig.compute_bias, MultiheadAttention.relativePositionBucket, h]

/-- `attention.py` lines 168-172: a supplied `past_key_value` must be a
    `(key, value)` pair. -/
def parsePast (past : Option (List Tensor4)) :
    Except AttnErr (Option (Tensor4 × Tensor4)) :=
  match past with
  | none => .ok none
  | some [pk, pv] => .ok (some (pk, pv))
  | some _ => .error .pastNotPair

/-- Query projection in cross-attention mode (attention.py lines 179-181):
    `query(hidden)`, `view(bsz, -1, heads, head_size)`, `permute(0,2,1,3)`. -/
def crossQuery (cfg : MHAConfig) (hidden : Tensor3) : Tensor4 :=
  ⟨fun b h s d => linearT cfg.wq cfg.hidden_size hidden.val b s
      (h * cfg.head_size + d), hidden.len⟩

/-- Key/value projections in cross-attention mode (attention.py lines 185-188):
    `key_value(encoder_states)`, `view(bsz, -1, heads, 2*head_size)`,
    `permute(0,2,1,3)`, `chunk(2, dim=-1)`. -/
def crossKey (cfg : MHAConfig) (enc : Tensor3) : Tensor4 :=
  ⟨fun b h s d => linearT cfg.key_value cfg.hidden_size enc.val b s
      (h * (2 * cfg.head_size) + d), enc.len⟩

def crossValue (cfg : MHAConfig) (enc : Tensor3) : Tensor4 :=
  ⟨fun b h s d => linearT cfg.key_value cfg.hidden_size enc.val b s
      (h * (2 * cfg.head_size) + cfg.head_size + d), enc.len⟩

/-- Fused query/key/value projection in self-attention mode (attention.py
    lines 198-203): `query_key_value(hidden)`, `view(bsz, -1, heads,
    3*head_size)`, `permute(0,2,1,3)`, `chunk(3, dim=-1)`. -/
def selfQKV (cfg : MHAConfig) (hidden : Tensor3) :
    Tensor4 × Tensor4 × Tensor4 :=
  (⟨fun b h s d => linearT cfg.query_key_value cfg.hidden_size hidden.val b s
      (h * (3 * cfg.head_size) + d), hidden.len⟩,
   ⟨fun b h s d => linearT cfg.query_key_value cfg.hidden_size hidden.val b s
      (h * (3 * cfg.head_size) + cfg.head_size + d), hidden.len⟩,
   ⟨fun b h s d => linearT cfg.query_key_value cfg.hidden_size hidden.val b s
      (h * (3 * cfg.head_size) + 2 * cfg.head_size + d), hidden.len⟩)

/-- `flow.cat((past, fresh), dim=2)` (attention.py lines 206-207). -/
def catSeq (past fresh : Tensor4) : Tensor4 :=
  ⟨fun b h s d => if s < past.len then past.val b h s d
                  else fresh.val b h (s - past.len) d,
   past.len + fresh.len⟩

/-- Key/value-source selection (attention.py lines 176-207): cross-attention
    reuses the cache, else projects the encoder states, else raises; self-
    attention projects the hidden states and concatenates any past cache. -/
def selectQKV (cfg : MHAConfig) (hidden : Tensor3) (enc : Option Tensor3)
    (pastPair : Option (Tensor4 × Tensor4)) :
    Except AttnErr (Tensor4 × Tensor4 × Tensor4) :=
  if cfg.is_cross_attention then
    match pastPair with
    | some (k, v) => .ok (crossQuery cfg hidden, k, v)
    | none =>
      match enc with
      | some es => .ok (crossQuery cfg hidden, crossKey cfg es, crossValue cfg es)
      | none => .error .crossNoSource
  else
    match pastPair with
    | some (pk, pv) =>
        .ok ((selfQKV cfg hidden).1, catSeq pk (selfQKV cfg hidden).2.1,
             catSeq pv (selfQKV cfg hidden).2.2)
    | none => .ok (selfQKV cfg hidden)

/-- `flow.matmul(query, key, transpose_b=True)` (attention.py line 214): the
    raw attention scores, a plain dot product over the head dimension with no
    scale factor applied. -/
def rawAttentionScores (q k : Tensor4) (head_size : ℕ) : BT4 :=
  fun b h i j => ∑ d in Finset.range head_size, q.val b h i d * k.val b h j d

/-- `position_bias[:, :, -tgt:, :]` (attention.py line 232): keep the trailing
    `tgt` rows of a bias with `rows` rows. -/
def sliceTrailingRows (pb : BiasT) (rows tgt : ℕ) : BiasT :=
  fun h i j => pb h (i + (rows - tgt)) j

/-- The freshly computed bias of attention.py lines 218-229: a zero tensor of
    shape `(1, heads, real_seq_length, key_length)` when the layer owns no
    bias table, else `compute_bias` — which can itself raise
    (ZeroDivisionError) before anything else in the branch runs. -/
def baseBias (cfg : MHAConfig) (real_seq_length key_length : ℕ) :
    Except AttnErr BiasT :=
  if cfg.has_relative_attention_bias then
    cfg.compute_bias real_seq_length key_length
  else
    .ok (fun _ _ _ => 0)

/-- Position-bias resolution (attention.py lines 217-239).  A supplied bias is
    used as-is (broadcast over the batch axis).  Otherwise the bias is first
    computed or zero-filled (lines 218-229, where `compute_bias` may raise
    ZeroDivisionError before anything else happens), then sliced to the
    trailing `tgt` rows when a cache is in play (`past_key_value` is non-None
    at line 231, i.e. a cache was passed in or `use_cache` reassigned it at
    line 211), and only then is the attention mask folded in as
    `(1 - mask) * -1000` — dereferencing the mask, hence failing, when
    `attention_mask` is None. -/
def resolvePositionBias (cfg : MHAConfig) (position_bias : Option BiasT)
    (attention_mask : Option MaskT) (real_seq_length key_length tgt : ℕ)
    (cacheInPlay : Bool) : Except AttnErr BT4 :=
  match position_bias with
  | some pb => .ok (fun _ h i j => pb h i j)
  | none =>
    match baseBias cfg real_seq_length key_length with
    | .error e => .error e
    | .ok pb0 =>
      let pb1 : BiasT :=
        if cacheInPlay then sliceTrailingRows pb0 real_seq_length tgt else pb0
      match attention_mask with
      | none => .error .maskNone
      | some m => .ok (fun b h i j => pb1 h i j + (1 - m b i j) * (-1000))

/-- Non-fused masking (attention.py lines 250-253): multiply by `coeff` when
    query/key layer scaling is on, zero out masked positions multiplicatively,
    then subtract `10000` at masked positions. -/
def nonFusedMaskedLogits (cfg : MHAConfig) (s1 : BT4) (m : MaskT) : BT4 :=
  fun b h i j =>
    (match cfg.coeff with
     | some c => s1 b h i j * (c : ℝ)
     | none => s1 b h i j) * m b i j - 10000 * (1 - m b i j)

/-- The pre-softmax logits (attention.py lines 244-258), given
    `s1 = attention_scores + position_bias` (line 241): fused path fills
    masked positions with `-10000`, non-fused path is `nonFusedMaskedLogits`,
    no mask leaves the scores untouched. -/
def attentionLogits (cfg : MHAConfig) (s1 : BT4) (mask : Option MaskT) : BT4 :=
  match mask with
  | none => s1
  | some m =>
    if cfg.scale_mask_softmax_fusion then
      fun b h i j => if m b i j = 0 then -10000 else s1 b h i j
    else
      nonFusedMaskedLogits cfg s1 m

/-- `flow.softmax(·, dim=-1)` over a key dimension of width `n`. -/
def softmaxKey (x : BT4) (n : ℕ) : BT4 :=
  fun b h i j => Real.exp (x b h i j) / ∑ t in Finset.range n, Real.exp (x b h i t)

/-- Result of `MultiheadAttention.forward`.  The Python function returns
    `(output[, updated_cache], position_bias)`; `scores` and `logits` are
    model-level observables exposing the intermediate tensors of lines 214
    (raw scores before bias) and 244-258 (pre-softmax logits) so that claims
    about them can be stated. -/
structure MHAOut where
  out : BT3
  cache : Option (List Tensor4)
  bias : BT4
  scores : BT4
  logits : BT4

/-- `MultiheadAttention.forward` (attention.py lines 126-288). -/
def MultiheadAttention.forward (cfg : MHAConfig) (hidden_states : Tensor3)
    (encoder_states : Option Tensor3) (attention_mask : Option MaskT)
    (past_key_value : Option (List Tensor4)) (use_cache : Bool)
    (position_bias : Option BiasT) (query_length : Option ℕ) :
    Except AttnErr MHAOut :=
  -- `to_global` placement conversions (lines 158-162) are identities here
  match parsePast past_key_value with
  | .error e => .error e
  | .ok pastPair =>
    let tgt := hidden_states.len
    -- lines 166-174
    let real_seq_length := tgt +
      (match pastPair, query_length with
       | none, _ => 0
       | some (pk, _), none => pk.len
       | some _, some ql => ql)
    let key_length :=
      match encoder_states with
      | none => real_seq_length
      | some es => es.len
    match selectQKV cfg hidden_states encoder_states pastPair with
    | .error e => .error e
    | .ok (q, k, v) =>
      -- line 210-211: package the (possibly extended) key/value as the cache
      let present : Option (List Tensor4) :=
        if use_cache then some [k, v] else none
      let scores := rawAttentionScores q k cfg.head_size
      -- at line 231 `past_key_value` has been reassigned when `use_cache`
      let cacheInPlay := use_cache || past_key_value.isSome
      match resolvePositionBias cfg position_bias attention_mask
          real_seq_length key_length tgt cacheInPlay with
      | .error e => .error e
      | .ok bias =>
        -- line 241: attention_scores += position_bias
        let s1 : BT4 := fun b h i j => scores b h i j + bias b h i j
        let logits := attentionLogits cfg s1 attention_mask
        let weights := softmaxKey logits key_length
        -- lines 261-271: dropout (identity), context matmul, transpose, merge
        let context : BT3 := fun b s o =>
          ∑ t in Finset.range key_length,
            weights b (o / cfg.head_size) s t *
              v.val b (o / cfg.head_size) t (o % cfg.head_size)
        -- line 274: output projection; lines 276-282: output dropout (identity;
        -- `dense` is built with bias=False so the fused bias-add adds nothing)
        let output := linearT cfg.dense cfg.hidden_size context
        .ok ⟨output, present, bias, scores, logits⟩

/-- RMS `LayerNorm.forward` (layer_norm.py lines 35-42):
    `x * rsqrt(mean(x², last_dim) + eps)` scaled by the learned weight; the
    float32 upcast/downcast is the identity in the real-valued model. -/
def LayerNorm.forward (weight : ℕ → ℝ) (eps : ℝ) (normalized_shape : ℕ)
    (hidden_states : BT3) : BT3 :=
  fun b s c =>
    weight c * (hidden_states b s c *
      (Real.sqrt ((∑ t in Finset.range normalized_shape,
          hidden_states b s t ^ 2) / (normalized_shape : ℝ) + eps))⁻¹)

/-- Static configuration and weights of one `TransformerLayer`
    (transformer_layer.py lines 47-124).  `build_attention` constructs
    `selfAttn` with `is_cross_attention=False` and (decoder only) `crossAttn`
    with `is_cross_attention=True`; theorems state those construction facts as
    hypotheses. -/
structure TLConfig where
  hidden_size : ℕ
  is_decoder : Bool
  selfAttn : MHAConfig
  crossAttn : MHAConfig
  input_layernorm_weight : ℕ → ℝ
  post_attention_layernorm_weight : ℕ → ℝ
  post_cross_attention_layernorm_weight : ℕ → ℝ
  layernorm_epsilon : ℝ
  /-- Modelled from the spec: the feed-forward sub-layer (`models/mlp.py` is
      not in the provided tree).  Spec §4.4: a map on hidden states, two
      variants ("t5"/"mt5") differing only in gating structure; it does not
      touch caches or biases, so it is an abstract map here. -/
  mlp : BT3 → BT3

/-- Result of `TransformerLayer.forward`: output hidden states, the cache
    4-tuple (decoder) or pair (encoder) when `use_cache`, and the position
    biases threaded back to the caller. -/
structure TLOut where
  out : BT3
  presents : Option (List Tensor4)
  position_bias : BT4
  encoder_decoder_position_bias : Option BT4

/-- `TransformerLayer.forward` (transformer_layer.py lines 126-230). -/
def TransformerLayer.forward (cfg : TLConfig) (hidden_states : Tensor3)
    (attention_mask : Option MaskT) (encoder_states : Option Tensor3)
    (encoder_attention_mask : Option MaskT)
    (past_key_value : Option (List Tensor4)) (use_cache : Bool)
    (position_bias : Option BiasT)
    (encoder_decoder_position_bias : Option BiasT) : Except AttnErr TLOut :=
  -- lines 156-162: placement conversion, identity here
  -- lines 164-173: split the supplied cache
  let split : Except AttnErr (Option (List Tensor4) × Option (List Tensor4)) :=
    match past_key_value with
    | some l =>
      if cfg.is_decoder then
        if l.length = 4 then .ok (some (l.take 2), some (l.drop 2))
        else .error .decoderPastNot4
      else .ok (some l, none)
    | none => .ok (none, none)
  match split with
  | .error e => .error e
  | .ok (self_past, cross_past) =>
    let ln1 : Tensor3 :=
      ⟨LayerNorm.forward cfg.input_layernorm_weight cfg.layernorm_epsilon
          cfg.hidden_size hidden_states.val, hidden_states.len⟩
    match MultiheadAttention.forward cfg.selfAttn ln1 none attention_mask
        self_past use_cache position_bias none with
    | .error e => .error e
    | .ok selfOut =>
      -- drop_path is nn.Identity when drop_path_prob = 0 (line 82)
      let presents := selfOut.cache
      let h2 : Tensor3 :=
        ⟨fun b s c => hidden_states.val b s c + selfOut.out b s c,
         hidden_states.len⟩
      let ln2 : Tensor3 :=
        ⟨LayerNorm.forward cfg.post_attention_layernorm_weight
            cfg.layernorm_epsilon cfg.hidden_size h2.val, h2.len⟩
      if cfg.is_decoder then
        -- lines 196-218
        let ql := presents.bind (fun pr => pr.head?.map Tensor4.len)
        match MultiheadAttention.forward cfg.crossAttn ln2 encoder_states
            encoder_attention_mask cross_past use_cache
            encoder_decoder_position_bias ql with
        | .error e => .error e
        | .ok crossOut =>
          -- line 213: presents = presents + decoder_presents (when use_cache)
          let presents2 :=
            match presents, crossOut.cache with
            | some a, some c => some (a ++ c)
            | _, _ => presents
          let h3 : Tensor3 :=
            ⟨fun b s c => h2.val b s c + crossOut.out b s c, h2.len⟩
          let ln3 : Tensor3 :=
            ⟨LayerNorm.forward cfg.post_cross_attention_layernorm_weight
                cfg.layernorm_epsilon cfg.hidden_size h3.val, h3.len⟩
          let mlp_output := cfg.mlp ln3.val
          .ok ⟨fun b s c => h3.val b s c + mlp_output b s c,
               presents2, selfOut.bias, some crossOut.bias⟩
      else
        let mlp_output := cfg.mlp ln2.val
        .ok ⟨fun b s c => h2.val b s c + mlp_output b s c,
             presents, selfOut.bias, none⟩

/-! Concrete fixtures used by witnesses and counterexamples. -/

/-- A 1-position hidden-state tensor of zeros. -/
def t3zero : Tensor3 := ⟨fun _ _ _ => 0, 1⟩

/-- A cached key/value tensor of zeros with sequence length 1. -/
def t4zero : Tensor4 := ⟨fun _ _ _ _ => 0, 1⟩

/-- Minimal self-attention configuration: hidden_size 1, one head, zero
    weights, no bias table, no softmax fusion, no query/key layer scaling. -/
def cfgSelf : MHAConfig :=
  ⟨1, 1, false, false, none, false, false, 32,
   fun _ _ => 0, fun _ _ => 0, fun _ _ => 0, fun _ _ => 0, fun _ _ => 0⟩

/-- `cfgSelf` in cross-attention mode. -/
def cfgCross : MHAConfig :=
  ⟨1, 1, true, false, none, false, false, 32,
   fun _ _ => 0, fun _ _ => 0, fun _ _ => 0, fun _ _ => 0, fun _ _ => 0⟩

/-- Encoder-side layer owning a bias table with the degenerate bucket count
    2: bidirectional bucketing makes `max_exact = (2 / 2) / 2 = 0`, and
    `compute_bias` divides by zero. -/
def cfgBias2 : MHAConfig :=
  ⟨1, 1, false, false, none, true, false, 2,
   fun _ _ => 0, fun _ _ => 0, fun _ _ => 0, fun _ _ => 0, fun _ _ => 0⟩

/-- C10 counterexample: a bias-table layer with `num_buckets = 2` (encoder,
    hence bidirectional bucketing) called with `position_bias = None` and
    `attention_mask = None` fails with ZeroDivisionError inside
    `compute_bias` (attention.py line 225) BEFORE the line-236 mask
    dereference is reached — the claimed failure mechanism (dereferencing
    the absent mask) is not what happens on that call. -/
theorem forward_mask_none_divzero_cex :
    MultiheadAttention.forward cfgBias2 t3zero none none none false none none =
      .error .divByZero ∧
    AttnErr.divByZero ≠ AttnErr.maskNone := by
  exact ⟨rfl, by decide⟩

/-- C10 amended: whenever `position_bias` is None and `attention_mask` is
    also None, and the bias computation of lines 218-229 itself succeeds
    (the layer owns no bias table, or its bucket configuration does not
    divide by zero), `forward` fails by dereferencing the absent mask while
    folding it into the bias (attention.py line 236) instead of returning an
    output; no None-mask guard exists on that branch.  A bias-table layer
    with `max_exact = 0` fails earlier, inside `compute_bias`. -/
theorem forward_bias_none_mask_none_fails (cfg : MHAConfig)
    (hidden_states : Tensor3) (enc : Option Tensor3) (pk pv : Tensor4)
    (past : Option (List Tensor4)) (uc : Bool) (ql : Option ℕ)
    (hself : cfg.is_cross_attention = false)
    (hpast : past = none ∨ past = some [pk, pv])
    (hbias : cfg.has_relative_attention_bias = true →
      bucketMaxExact (!cfg.is_decoder) cfg.relative_attention_num_buckets ≠ 0) :
    MultiheadAttention.forward cfg hidden_states enc none past uc none ql =
      .error .maskNone := by
  have key : ∀ rsl kl tgtv cip,
      resolvePositionBias cfg none none rsl kl tgtv cip =
        .error .maskNone := by
    intro rsl kl tgtv cip
    cases hrel : cfg.has_relative_attention_bias with
    | false => simp [resolvePositionBias, baseBias, hrel]
    | true =>
      simp [resolvePositionBias, baseBias, MHAConfig.compute_bias, hrel,
        hbias hrel]
  rcases hpast with h | h <;> subst h <;> cases enc <;>
    simp [MultiheadAttention.forward, parsePast, selectQKV, selfQKV,
      hself, key]

/-- Witness for the amended C10 at a concrete self-attention call without a
    bias table. -/
theorem forward_bias_none_mask_none_fails_witness :
    MultiheadAttention.forward cfgSelf t3zero none none none false none none =
      .error .maskNone :=
  forward_bias_none_mask_none_fails cfgSelf t3zero none t4zero t4zero none
    false none rfl (Or.inl rfl) (by decide)

/-- C5: self-attention with `use_cache = True`, a cached (key, value) pair of
    sequence length L each, and a query of length 1 returns a cache whose key
    and value both have sequence length exactly L + 1. -/
theorem self_attention_cache_growth (cfg : MHAConfig) (hidden_states : Tensor3)
    (mask : Option MaskT) (pk pv : Tensor4) (L : ℕ) (p : BiasT) (ql : Option ℕ)
    (hself : cfg.is_cross_attention = false) (htgt : hidden_states.len = 1)
    (hk : pk.len = L) (hv : pv.len = L) :
    (MultiheadAttention.forward cfg hidden_states none mask (some [pk, pv])
        true (some p) ql).map (fun o => o.cache.map (List.map Tensor4.len)) =
      .ok (some [L + 1, L + 1]) := by
  simp [MultiheadAttention.forward, parsePast, selectQKV, selfQKV, catSeq,
    resolvePositionBias, Except.map, hself, htgt, hk, hv]

/-- Witness for C5: one incremental decode step on a cache of length 1. -/
theorem self_attention_cache_growth_witness :
    (MultiheadAttention.forward cfgSelf t3zero none none (some [t4zero, t4zero])
        true (some (fun _ _ _ => 0)) none).map
      (fun o => o.cache.map (List.map Tensor4.len)) = .ok (some [1 + 1, 1 + 1]) :=
  self_attention_cache_growth cfgSelf t3zero none t4zero t4zero 1
    (fun _ _ _ => 0) none rfl rfl rfl rfl

/-- C7: in cross-attention mode, `forward` with neither `past_key_value` nor
    `encoder_states` raises the one-source error; within the key/value source
    selection (attention.py lines 176-207) this is the only raising
    condition; a supplied cache is used unchanged as key/value and returned
    unchanged in the cache when `use_cache` is true. -/
theorem cross_attention_kv_source (cfg : MHAConfig) (hidden_states : Tensor3)
    (hcross : cfg.is_cross_attention = true) :
    (∀ mask uc pb ql,
      MultiheadAttention.forward cfg hidden_states none mask none uc pb ql =
        .error .crossNoSource) ∧
    (∀ enc pp e, selectQKV cfg hidden_states enc pp = .error e ↔
        (pp = none ∧ enc = none ∧ e = .crossNoSource)) ∧
    (∀ k v enc, selectQKV cfg hidden_states enc (some (k, v)) =
        .ok (crossQuery cfg hidden_states, k, v)) ∧
    (∀ k v enc mask pb ql,
      (MultiheadAttention.forward cfg hidden_states enc mask (some [k, v])
          true (some pb) ql).map (fun o => o.cache) = .ok (some [k, v])) := by
  refine ⟨?_, ?_, ?_, ?_⟩
  · intro mask uc pb ql
    simp [MultiheadAttention.forward, parsePast, selectQKV, hcross]
  · intro enc pp e
    rcases pp with _ | ⟨k, v⟩ <;> rcases enc with _ | es <;>
      simp [selectQKV, hcross, eq_comm]
  · intro k v enc
    simp [selectQKV, hcross]
  · intro k v enc mask pb ql
    cases enc <;>
      simp [MultiheadAttention.forward, parsePast, selectQKV,
        resolvePositionBias, Except.map, hcross]

/-- Witness for C7 at a concrete cross-attention call with no source. -/
theorem cross_attention_kv_source_witness :
    MultiheadAttention.forward cfgCross t3zero none none none false none none =
      .error .crossNoSource :=
  (cross_attention_kv_source cfgCross t3zero rfl).1 none false none none

/-- C2 counterexample: with a cache in play (past of length 1, query length
    1, so `real_seq_length = 2`), a supplied `position_bias` is NOT sliced to
    the trailing query rows: the returned bias still holds row 0 of the
    supplied bias (value 0), while the slicing described by the claim would
    yield row 1 (value 1). -/
theorem position_bias_supplied_not_sliced_cex :
    (MultiheadAttention.forward cfgSelf t3zero none none
        (some [t4zero, t4zero]) false (some (fun _ i _ => (i : ℝ))) none).map
      (fun o => o.bias 0 0 0 0) = .ok ((fun (_ i _ : ℕ) => (i : ℝ)) 0 0 0) ∧
    (fun (_ i _ : ℕ) => (i : ℝ)) 0 0 0 ≠
      sliceTrailingRows (fun _ i _ => (i : ℝ)) 2 1 0 0 0 := by
  constructor
  · simp [MultiheadAttention.forward, parsePast, selectQKV,
      resolvePositionBias, Except.map, cfgSelf]
  · simp [sliceTrailingRows]

/-- C2 amended: a supplied `position_bias` is reused as-is whether or not a
    cache is in play (it is never sliced, only broadcast over the batch
    axis); slicing to the trailing query rows applies only to a bias computed
    inside the call (`position_bias = None`) when a cache is in play, and
    only when the bias computation of lines 218-229 itself succeeds — a
    bias-table layer whose bucketing divides by zero propagates that error
    instead, before any slicing or mask folding. -/
theorem position_bias_resolution (cfg : MHAConfig) (mask : Option MaskT)
    (rsl kl tgt : ℕ) (cip : Bool) :
    (∀ pb, resolvePositionBias cfg (some pb) mask rsl kl tgt cip =
        .ok (fun _ h i j => pb h i j)) ∧
    (∀ m pb0, mask = some m → cip = true → baseBias cfg rsl kl = .ok pb0 →
        resolvePositionBias cfg none mask rsl kl tgt cip =
          .ok (fun b h i j =>
            sliceTrailingRows pb0 rsl tgt h i j + (1 - m b i j) * (-1000))) ∧
    (∀ e, baseBias cfg rsl kl = .error e →
        resolvePositionBias cfg none mask rsl kl tgt cip = .error e) := by
  refine ⟨fun pb => rfl, ?_, ?_⟩
  · intro m pb0 hm hcip hbb
    subst hm
    subst hcip
    simp [resolvePositionBias, hbb]
  · intro e hbb
    simp [resolvePositionBias, hbb]

/-- Witness for the amended C2 on the computed-bias branch with a cache in
    play (the no-bias-table layer computes the zero bias). -/
theorem position_bias_resolution_witness :
    resolvePositionBias cfgSelf none (some (fun _ _ _ => 1)) 2 2 1 true =
      .ok (fun b h i j =>
        sliceTrailingRows (fun _ _ _ => (0 : ℝ)) 2 1 h i j +
          (1 - (fun (_ _ _ : ℕ) => (1 : ℝ)) b i j) * (-1000)) :=
  (position_bias_resolution cfgSelf (some (fun _ _ _ => 1)) 2 2 1 true).2.1
    (fun _ _ _ => 1) (fun _ _ _ => 0) rfl rfl rfl

/-- C3 counterexample: one non-fused forward call with `position_bias = None`
    and a masked position applies BOTH constants to the same mask: the −1000
    fold lands in the returned position bias AND the −10000 masking lands in
    the pre-softmax logits.  (With zero weights the raw score is 0, so a
    −1000-only penalty would leave the masked logit at −1000 and a
    −10000-only penalty would leave the bias at 0; the call produces bias
    −1000 together with logit −10000, refuting "exactly one constant per
    call".) -/
theorem mask_double_penalty_cex :
    (MultiheadAttention.forward cfgSelf t3zero none (some (fun _ _ _ => 0))
        none false none none).map
      (fun o => (o.bias 0 0 0 0, o.logits 0 0 0 0)) =
      .ok (-1000, -10000) ∧
    ((-1000 : ℝ) ≠ 0) ∧ ((-10000 : ℝ) ≠ -1000) := by
  refine ⟨?_, by norm_num, by norm_num⟩
  simp only [MultiheadAttention.forward, parsePast, selectQKV, selfQKV,
    resolvePositionBias, baseBias, attentionLogits, nonFusedMaskedLogits,
    rawAttentionScores, linearT, softmaxKey, Except.map, cfgSelf,
    MHAConfig.head_size]
  norm_num [nonFusedMaskedLogits]

/-- C3 amended: with an attention mask and the non-fused softmax path the
    penalties split by the `position_bias` argument, not one-per-call: when
    `position_bias` is None, provided the bias computation of lines 218-229
    succeeds (a degenerate bias-table bucketing raises ZeroDivisionError
    first and applies neither constant), the −1000 fold lands in the
    (returned) bias AND the −10000 masking is additionally applied to the
    bias-inclusive scores in the same call (the multiplicative zeroing then
    leaves each masked logit at −10000); when `position_bias` is supplied,
    only the −10000 masking applies. -/
theorem mask_penalty_constants (cfg : MHAConfig) (m : MaskT)
    (rsl kl tgt : ℕ) (cip : Bool) (s1 : BT4) (pb0 : BiasT)
    (hnf : cfg.scale_mask_softmax_fusion = false)
    (hbb : baseBias cfg rsl kl = .ok pb0) :
    resolvePositionBias cfg none (some m) rsl kl tgt cip =
      .ok (fun b h i j =>
        (if cip then sliceTrailingRows pb0 rsl tgt else pb0) h i j +
          (1 - m b i j) * (-1000)) ∧
    attentionLogits cfg s1 (some m) = nonFusedMaskedLogits cfg s1 m ∧
    (∀ pb, resolvePositionBias cfg (some pb) (some m) rsl kl tgt cip =
        .ok (fun _ h i j => pb h i j)) := by
  refine ⟨?_, ?_, fun pb => rfl⟩
  · simp [resolvePositionBias, hbb]
  · simp [attentionLogits, hnf]

/-- Witness for the amended C3 at a concrete non-fused configuration. -/
theorem mask_penalty_constants_witness :
    resolvePositionBias cfgSelf none (some (fun _ _ _ => 0)) 1 1 1 false =
      .ok (fun b h i j =>
        (if false then sliceTrailingRows (fun _ _ _ => (0 : ℝ)) 1 1
         else fun _ _ _ => (0 : ℝ)) h i j +
          (1 - (fun (_ _ _ : ℕ) => (0 : ℝ)) b i j) * (-1000)) ∧
    attentionLogits cfgSelf (fun _ _ _ _ => 0) (some (fun _ _ _ => 0)) =
      nonFusedMaskedLogits cfgSelf (fun _ _ _ _ => 0) (fun _ _ _ => 0) ∧
    (∀ pb, resolvePositionBias cfgSelf (some pb) (some (fun _ _ _ => 0))
        1 1 1 false = .ok (fun _ h i j => pb h i j)) :=
  mask_penalty_constants cfgSelf (fun _ _ _ => 0) 1 1 1 false
    (fun _ _ _ _ => 0) (fun _ _ _ => 0) rfl rfl

/-- Self-attention configuration with hidden_size 4 and one head (so
    `head_size = 4` and the claimed scale factor would be 1/2), whose fused
    query-key-value weight makes both query and key equal to the first basis
    vector on the input `t3e0`. -/
def cfgWide : MHAConfig :=
  ⟨4, 1, false, false, none, false, false, 32,
   fun o c => if (o = 0 ∨ o = 4) ∧ c = 0 then 1 else 0,
   fun _ _ => 0, fun _ _ => 0, fun _ _ => 0, fun _ _ => 0⟩

/-- A single-position input whose feature vector is the first basis vector. -/
def t3e0 : Tensor3 := ⟨fun _ _ c => if c = 0 then 1 else 0, 1⟩

/-- C1 counterexample: at a concrete input with query = key = e₀ and
    head_size 4, the raw attention scores before the position bias are 1 —
    the plain dot product — and not the claimed `1/sqrt(head_size)`-scaled
    value 1/2. -/
theorem attention_scores_unscaled_cex :
    (MultiheadAttention.forward cfgWide t3e0 none none none false
        (some (fun _ _ _ => 0)) none).map (fun o => o.scores 0 0 0 0) =
      .ok 1 ∧
    (1 : ℝ) ≠ 1 / Real.sqrt 4 * 1 := by
  constructor
  · simp only [MultiheadAttention.forward, parsePast, selectQKV, selfQKV,
      resolvePositionBias, rawAttentionScores, linearT, Except.map, cfgWide,
      t3e0, MHAConfig.head_size]
    norm_num [rawAttentionScores, Finset.sum_range_succ]
  · have h4 : Real.sqrt 4 = 2 := by
      rw [show (4 : ℝ) = 2 ^ 2 by norm_num]
      exact Real.sqrt_sq (by norm_num)
    rw [h4]
    norm_num

/-- C1 amended: the raw attention scores used before adding the position
    bias are the PLAIN (unscaled) dot product of query and key — the
    `1/sqrt(head_size)` factor (`norm_factor`, further divided by
    `layer_idx + 1` in `__init__`) is computed at construction but never
    applied in `forward` — and when `apply_query_key_layer_scaling` is
    enabled, the non-fused masked path instead MULTIPLIES the bias-inclusive
    scores by `layer_idx + 1` after the position bias has been added. -/
theorem attention_scores_unscaled (cfg : MHAConfig) (hidden_states : Tensor3)
    (m : MaskT) (uc : Bool) (pb : BiasT) (ql : Option ℕ) (c : ℕ)
    (hself : cfg.is_cross_attention = false) (hc : cfg.coeff = some c)
    (hnf : cfg.scale_mask_softmax_fusion = false) :
    (MultiheadAttention.forward cfg hidden_states none (some m) none uc
        (some pb) ql).map (fun o => o.scores) =
      .ok (rawAttentionScores (selfQKV cfg hidden_states).1
            (selfQKV cfg hidden_states).2.1 cfg.head_size) ∧
    (MultiheadAttention.forward cfg hidden_states none (some m) none uc
        (some pb) ql).map (fun o => o.logits) =
      (MultiheadAttention.forward cfg hidden_states none (some m) none uc
          (some pb) ql).map (fun o => fun b h i j =>
            (o.scores b h i j + o.bias b h i j) * (c : ℝ) * m b i j -
              10000 * (1 - m b i j)) := by
  constructor
  · simp [MultiheadAttention.forward, parsePast, selectQKV,
      resolvePositionBias, Except.map, hself]
  · simp only [MultiheadAttention.forward, parsePast, selectQKV,
      resolvePositionBias, attentionLogits, nonFusedMaskedLogits,
      Except.map, hself, hnf, hc, Bool.false_eq_true, if_false]
    congr 1
    funext b h i j
    simp [nonFusedMaskedLogits, hc]

/-- `cfgSelf` with `apply_query_key_layer_scaling` enabled at layer index 1,
    i.e. `coeff = layer_idx + 1 = 2`. -/
def cfgCoeff : MHAConfig :=
  ⟨1, 1, false, false, some 2, false, false, 32,
   fun _ _ => 0, fun _ _ => 0, fun _ _ => 0, fun _ _ => 0, fun _ _ => 0⟩

/-- Witness for the amended C1 at a concrete scaled configuration. -/
theorem attention_scores_unscaled_witness :
    (MultiheadAttention.forward cfgCoeff t3zero none (some (fun _ _ _ => 1))
        none false (some (fun _ _ _ => 0)) none).map (fun o => o.scores) =
      .ok (rawAttentionScores (selfQKV cfgCoeff t3zero).1
            (selfQKV cfgCoeff t3zero).2.1 cfgCoeff.head_size) ∧
    (MultiheadAttention.forward cfgCoeff t3zero none (some (fun _ _ _ => 1))
        none false (some (fun _ _ _ => 0)) none).map (fun o => o.logits) =
      (MultiheadAttention.forward cfgCoeff t3zero none (some (fun _ _ _ => 1))
          none false (some (fun _ _ _ => 0)) none).map (fun o => fun b h i j =>
            (o.scores b h i j + o.bias b h i j) * ((2 : ℕ) : ℝ) *
              (fun (_ _ _ : ℕ) => (1 : ℝ)) b i j -
              10000 * (1 - (fun (_ _ _ : ℕ) => (1 : ℝ)) b i j)) :=
  attention_scores_unscaled cfgCoeff t3zero (fun _ _ _ => 1) false
    (fun _ _ _ => 0) none 2 rfl rfl rfl

/-- Self-attention with `apply_query_key_layer_scaling` at layer index 1
    (`coeff = 2`), all-ones fused query-key-value and output weights: on
    `t3x` below, query, key and value all equal the input scalar sequence. -/
def cfgC8 : MHAConfig :=
  ⟨1, 1, false, false, some 2, false, false, 32,
   fun _ _ => 1, fun _ _ => 0, fun _ _ => 0, fun _ _ => 1, fun _ _ => 0⟩

/-- A two-position input with feature values 0 and 1. -/
def t3x : Tensor3 := ⟨fun _ s _ => if s = 1 then 1 else 0, 2⟩

/-- C8 counterexample, both ways the claim fails.  (1) With
    `position_bias = None`, the all-ones-mask call returns an output while
    the `attention_mask = None` call fails at the line-236 mask dereference —
    the two calls cannot produce the same output.  (2) With
    `apply_query_key_layer_scaling` enabled (`coeff = 2`) and a supplied
    bias, the non-fused masked path multiplies the logits by the coefficient
    while the mask-None path does not, and at position 1 of `t3x` the two
    outputs are `exp 2 / (exp 0 + exp 2)` versus `exp 1 / (exp 0 + exp 1)`,
    which differ. -/
theorem all_ones_mask_vs_none_cex :
    ((∃ o, MultiheadAttention.forward cfgSelf t3zero none
        (some (fun _ _ _ => 1)) none false none none = .ok o) ∧
     MultiheadAttention.forward cfgSelf t3zero none none none false none none =
       .error .maskNone) ∧
    (MultiheadAttention.forward cfgC8 t3x none (some (fun _ _ _ => 1)) none
        false (some (fun _ _ _ => 0)) none).map (fun o => o.out 0 1 0) ≠
      (MultiheadAttention.forward cfgC8 t3x none none none false
        (some (fun _ _ _ => 0)) none).map (fun o => o.out 0 1 0) := by
  refine ⟨⟨⟨_, rfl⟩, rfl⟩, ?_⟩
  intro h
  simp only [MultiheadAttention.forward, parsePast, selectQKV, selfQKV,
    resolvePositionBias, rawAttentionScores, attentionLogits,
    nonFusedMaskedLogits, softmaxKey, linearT, Except.map, cfgC8, t3x,
    MHAConfig.head_size] at h
  norm_num [Finset.sum_range_succ] at h
  norm_num [linearT, nonFusedMaskedLogits, Finset.sum_range_succ,
    Real.exp_zero] at h
  have h1 : (0 : ℝ) < 1 + Real.exp 2 := by positivity
  have h2 : (0 : ℝ) < 1 + Real.exp 1 := by positivity
  rw [div_eq_div_iff h1.ne' h2.ne'] at h
  have he : Real.exp 1 < Real.exp 2 := Real.exp_lt_exp.mpr (by norm_num)
  nlinarith [he]

/-- An all-ones attention mask leaves the pre-softmax logits untouched when
    query/key layer scaling is off, on both the fused and non-fused paths. -/
lemma attentionLogits_all_ones (cfg : MHAConfig) (s1 : BT4)
    (hc : cfg.coeff = none) :
    attentionLogits cfg s1 (some (fun _ _ _ => 1)) = attentionLogits cfg s1 none := by
  cases hf : cfg.scale_mask_softmax_fusion with
  | true =>
    funext b h i j
    simp [attentionLogits, hf]
  | false =>
    funext b h i j
    simp [attentionLogits, hf, nonFusedMaskedLogits, hc]

/-- C8 amended: with dropout disabled, a supplied `position_bias` and
    query/key layer scaling off, a forward call with an all-ones attention
    mask returns exactly the same result as the call with
    `attention_mask = None`; when `position_bias` is None the mask-None call
    fails instead of producing an output. -/
theorem all_ones_mask_equals_none (cfg : MHAConfig) (hidden_states : Tensor3)
    (enc : Option Tensor3) (past : Option (List Tensor4)) (uc : Bool)
    (pb : BiasT) (ql : Option ℕ) (hc : cfg.coeff = none) :
    MultiheadAttention.forward cfg hidden_states enc (some (fun _ _ _ => 1))
        past uc (some pb) ql =
      MultiheadAttention.forward cfg hidden_states enc none past uc
        (some pb) ql := by
  cases hpp : parsePast past with
  | error e => simp only [MultiheadAttention.forward, hpp]
  | ok pp =>
    cases hsel : selectQKV cfg hidden_states enc pp with
    | error e => simp only [MultiheadAttention.forward, hpp, hsel]
    | ok qkv =>
      obtain ⟨q, k, v⟩ := qkv
      simp only [MultiheadAttention.forward, hpp, hsel, resolvePositionBias]
      rw [attentionLogits_all_ones cfg _ hc]

/-- Witness for the amended C8 at a concrete call. -/
theorem all_ones_mask_equals_none_witness :
    MultiheadAttention.forward cfgSelf t3zero none (some (fun _ _ _ => 1))
        none false (some (fun _ _ _ => 0)) none =
      MultiheadAttention.forward cfgSelf t3zero none none none false
        (some (fun _ _ _ => 0)) none :=
  all_ones_mask_equals_none cfgSelf t3zero none none false (fun _ _ _ => 0)
    none rfl

/-- C6 counterexample: with the positive epsilon the code adds inside the
    root-mean-square (default 1e-6; the T5 layer is built with 1e-5), scaling
    the input by c = 2 changes the normalized output:
    `norm(2·1) = 2/sqrt(4+eps)` differs from `norm(1) = 1/sqrt(1+eps)`. -/
theorem rms_norm_scale_cex :
    LayerNorm.forward (fun _ => 1) (1 / 1000000) 1
        (fun b s i => 2 * (fun (_ _ _ : ℕ) => (1 : ℝ)) b s i) 0 0 0 ≠
      LayerNorm.forward (fun _ => 1) (1 / 1000000) 1
        (fun (_ _ _ : ℕ) => (1 : ℝ)) 0 0 0 := by
  intro h
  simp only [LayerNorm.forward, Finset.sum_range_one] at h
  norm_num at h
  have ha : (0 : ℝ) < Real.sqrt 1000000 := Real.sqrt_pos.mpr (by norm_num)
  have hb : (0 : ℝ) < Real.sqrt 4000001 := Real.sqrt_pos.mpr (by norm_num)
  have hc : (0 : ℝ) < Real.sqrt 1000001 := Real.sqrt_pos.mpr (by norm_num)
  have hb2 : Real.sqrt 4000001 ^ 2 = 4000001 := Real.sq_sqrt (by norm_num)
  have hc2 : Real.sqrt 1000001 ^ 2 = 1000001 := Real.sq_sqrt (by norm_num)
  rw [← mul_div_assoc, div_eq_div_iff hb.ne' hc.ne'] at h
  have key : Real.sqrt 1000000 *
      (2 * Real.sqrt 1000001 - Real.sqrt 4000001) = 0 := by
    linear_combination h
  have h2 : 2 * Real.sqrt 1000001 - Real.sqrt 4000001 = 0 := by
    rcases mul_eq_zero.mp key with h' | h'
    · exact absurd h' ha.ne'
    · exact h'
  have h3 : Real.sqrt 4000001 = 2 * Real.sqrt 1000001 := by linarith
  rw [h3] at hb2
  nlinarith [hc2, hb2]

/-- C6 amended: RMS normalization cancels a uniform positive input scale
    exactly only for the idealized epsilon = 0 norm:
    `norm(c*x) = norm(x)` for every `c > 0` when `eps = 0`; with the positive
    epsilon the code uses (1e-6 default / 1e-5 in the layer), the identity
    holds only approximately (see the counterexample). -/
theorem rms_norm_scale_invariant_eps_zero (w : ℕ → ℝ) (n : ℕ) (x : BT3)
    (c : ℝ) (hc : 0 < c) :
    LayerNorm.forward w 0 n (fun b s i => c * x b s i) =
      LayerNorm.forward w 0 n x := by
  funext b s i
  simp only [LayerNorm.forward, add_zero]
  have hsum : (∑ t in Finset.range n, (c * x b s t) ^ 2) =
      c ^ 2 * ∑ t in Finset.range n, x b s t ^ 2 := by
    rw [Finset.mul_sum]
    exact Finset.sum_congr rfl fun t _ => by ring
  rw [hsum, mul_div_assoc, Real.sqrt_mul (sq_nonneg c), Real.sqrt_sq hc.le]
  rcases eq_or_ne
      (Real.sqrt ((∑ t in Finset.range n, x b s t ^ 2) / (n : ℝ))) 0 with
    h0 | h0
  · rw [h0]
    simp
  · rw [mul_inv]
    have hcc : c * c⁻¹ = 1 := mul_inv_cancel₀ hc.ne'
    linear_combination (w i * x b s i *
      (Real.sqrt ((∑ t in Finset.range n, x b s t ^ 2) / (n : ℝ)))⁻¹) * hcc

/-- Witness for the amended C6 at `c = 2` on a constant input. -/
theorem rms_norm_scale_invariant_eps_zero_witness :
    LayerNorm.forward (fun _ => 1) 0 1
        (fun b s i => 2 * (fun (_ _ _ : ℕ) => (1 : ℝ)) b s i) =
      LayerNorm.forward (fun _ => 1) 0 1 (fun (_ _ _ : ℕ) => (1 : ℝ)) :=
  rms_norm_scale_invariant_eps_zero (fun _ => 1) 1 (fun _ _ _ => 1) 2
    (by norm_num)

/-- C9: a decoder `TransformerLayer` with `use_cache` returns the
    self-attention cache pair and the cross-attention cache pair concatenated
    into a single 4-tuple; a supplied decoder `past_key_value` splits so that
    its first two entries go to self-attention (whose cache they extend by
    the query length) and its last two to cross-attention (returned in the
    4-tuple unchanged); a decoder `past_key_value` of any other length is
    rejected. -/
theorem decoder_cache_threading (cfg : TLConfig) (hidden_states : Tensor3)
    (mask emask : Option MaskT) (enc : Option Tensor3) (p q : BiasT)
    (hdec : cfg.is_decoder = true)
    (hself : cfg.selfAttn.is_cross_attention = false)
    (hcross : cfg.crossAttn.is_cross_attention = true) :
    (∀ l : List Tensor4, l.length ≠ 4 →
      TransformerLayer.forward cfg hidden_states mask enc emask (some l) true
          (some p) (some q) = .error .decoderPastNot4) ∧
    (∀ a b c d : Tensor4, ∃ o k v,
      TransformerLayer.forward cfg hidden_states mask enc emask
          (some [a, b, c, d]) true (some p) (some q) = .ok o ∧
      o.presents = some [k, v, c, d] ∧
      k.len = a.len + hidden_states.len ∧
      v.len = b.len + hidden_states.len) := by
  constructor
  · intro l hlen
    simp [TransformerLayer.forward, hdec, hlen]
  · intro a b c d
    simp only [TransformerLayer.forward, MultiheadAttention.forward,
      parsePast, selectQKV, resolvePositionBias, hdec, hself, hcross,
      List.length_cons, List.length_nil, List.take, List.drop,
      Option.bind_some, List.head?, Option.map_some, if_true, reduceIte,
      Option.bind, Bool.false_eq_true, if_false]
    exact ⟨_, _, _, rfl, rfl, by simp [catSeq, selfQKV], by simp [catSeq, selfQKV]⟩

/-- Concrete decoder layer: hidden_size 1, self/cross attention as in
    `cfgSelf`/`cfgCross`, unit norm weights, identity feed-forward. -/
def cfgTL : TLConfig :=
  ⟨1, true, cfgSelf, cfgCross, fun _ => 1, fun _ => 1, fun _ => 1,
   1 / 1000000, fun x => x⟩

/-- Witness for C9: one decode step on a concrete 4-entry decoder cache. -/
theorem decoder_cache_threading_witness :
    ∃ o k v,
      TransformerLayer.forward cfgTL t3zero none none none
          (some [t4zero, t4zero, t4zero, t4zero]) true
          (some (fun _ _ _ => 0)) (some (fun _ _ _ => 0)) = .ok o ∧
      o.presents = some [k, v, t4zero, t4zero] ∧
      k.len = t4zero.len + t3zero.len ∧
      v.len = t4zero.len + t3zero.len :=
  (decoder_cache_threading cfgTL t3zero none none none (fun _ _ _ => 0)
      (fun _ _ _ => 0) rfl rfl rfl).2 t4zero t4zero t4zero t4zero
